import Mathlib

/-!
Shallow embedding of the CDP socket bridge (src/unnamed/part_000):
the classes CDPSocketServer and CDPSocket, which emulate a socket.io-style
event bus on top of a Chrome-DevTools-Protocol client.

Modelling conventions:
* JavaScript values that travel through the bridge are the inductive type
  JSVal; functions are opaque values tagged by a number, and the synthesized
  acknowledgement callback built by processCDPRuntimeBinding is its own
  constructor capturing the acknowledgement-event name it closes over.
* The Node EventEmitter listener table is an explicit list of listeners;
  super.emit is dispatchLocal, this.once appends a one-shot listener.
* randomUUID() and the external codec (encode/decode from ./utils, outside
  this repository) are oracles: the uuid, the stringified codec output and
  the decode result are parameters of the functions that consume them.
* Asynchronous effects of emit are recorded as an ordered action trace:
  the one-shot listener registration, the envelope handed to the codec, and
  the Runtime.evaluate call, in program order.
-/

/-- A JavaScript value exchanged through the bridge. Plain functions are
opaque (fn); ackFn is the acknowledgement callback synthesized by
processCDPRuntimeBinding, capturing the acknowledgement-event name. -/
inductive JSVal where
  | str : String → JSVal
  | num : Int → JSVal
  | boolean : Bool → JSVal
  | fn : Nat → JSVal
  | ackFn : String → JSVal
deriving DecidableEq, Repr

/-- Mirrors the JavaScript test typeof v === "function": true exactly for
function values (plain functions and the synthesized callback). -/
def JSVal.isFunction : JSVal → Bool
  | .fn _ => true
  | .ackFn _ => true
  | _ => false

/-- The wire-level envelope: (event name, acknowledgement-event id,
argument list), as encoded on line 115 and decoded on line 153 of the
source. -/
abbrev Envelope := String × String × List JSVal

/-- One entry of the Node EventEmitter listener table: the event it is
registered under, whether it is one-shot (registered via once), and the
callback value. -/
structure Listener where
  event : String
  once : Bool
  callback : JSVal
deriving DecidableEq, Repr

/-- A local listener invocation: the callback together with the argument
list it is called with. -/
abbrev Invocation := JSVal × List JSVal

/-- Observable step performed by emit, in program order. -/
inductive BridgeAction where
  | registerOnce : String → JSVal → BridgeAction
  | encodeCall : Envelope → String → BridgeAction
  | evaluate : String → Option Nat → BridgeAction
deriving DecidableEq, Repr

/-- The backslash character. -/
def backslashChar : Char := Char.ofNat 92

/-- The single-quote character. -/
def singleQuoteChar : Char := Char.ofNat 39

/-- Source line 118, first replaceAll: every backslash becomes two
backslashes. -/
def escapeBackslashes : List Char → List Char
  | [] => []
  | c :: cs =>
    if c = backslashChar then backslashChar :: backslashChar :: escapeBackslashes cs
    else c :: escapeBackslashes cs

/-- Source line 118, second replaceAll: every single quote becomes
backslash followed by single quote. -/
def escapeSingleQuotes : List Char → List Char
  | [] => []
  | c :: cs =>
    if c = singleQuoteChar then backslashChar :: singleQuoteChar :: escapeSingleQuotes cs
    else c :: escapeSingleQuotes cs

/-- The escaping applied to the stringified codec output before it is
embedded in the injected script (source line 118): backslashes first,
single quotes second. -/
def escapePayload (s : String) : String :=
  ⟨escapeSingleQuotes (escapeBackslashes s.data)⟩

/-- Interpretation of a JavaScript single-quoted string literal body over
the escape sequences the bridge produces: a backslash followed by any
character denotes that character. -/
def unescapeChars : List Char → List Char
  | [] => []
  | [c] => [c]
  | c1 :: c2 :: cs =>
    if c1 = backslashChar then c2 :: unescapeChars cs
    else c1 :: unescapeChars (c2 :: cs)

/-- String-level unescaping of the embedded literal. -/
def unescapePayload (s : String) : String :=
  ⟨unescapeChars s.data⟩

/-- The page-callable binding name registered by CDPSocket.init
(source line 91) and filtered on by processCDPRuntimeBinding
(source line 144). -/
def bindingName (ns : String) : String :=
  "cypressSendToServer-" ++ ns

/-- The injected script built by emit (source lines 116-120), with the
already-escaped payload embedded inside a single-quoted literal. -/
def buildExpression (ns : String) (encodedStr : String) : String :=
  "\n        if (window[\x27cypressSocket-" ++ ns ++ "\x27] && window[\x27cypressSocket-"
    ++ ns ++ "\x27].send) \x7b\n          window[\x27cypressSocket-" ++ ns
    ++ "\x27].send(\x27" ++ escapePayload encodedStr
    ++ "\x27)\n        \x7d\n      "

/-- State of one CDPSocket (source lines 73-85): the nullable CDP client
reference, the namespace string, the last-seen execution-context id and
the EventEmitter listener table. -/
structure CDPSocket where
  _cdpClient : Option Unit
  _namespace : String
  _executionContextId : Option Nat
  listeners : List Listener
deriving DecidableEq, Repr

/-- Node EventEmitter emit (the super.emit of source line 159): every
listener registered under the event fires with the given arguments, and
one-shot listeners for the event are removed. -/
def dispatchLocal (s : CDPSocket) (event : String) (args : List JSVal) :
    CDPSocket × List Invocation :=
  let fired := s.listeners.filter (fun l => l.event == event)
  let remaining := s.listeners.filter (fun l => !(l.event == event && l.once))
  ({ s with listeners := remaining }, fired.map (fun l => (l.callback, args)))

/-- The anonymous notification event delivered by the CDP client
(Protocol.Runtime.BindingCalledEvent, source line 141). -/
structure BindingCalledEvent where
  name : String
  payload : String
  executionContextId : Nat
deriving DecidableEq, Repr

/-- Result of one emit call: the successor socket state, the ordered
action trace, and the returned value. -/
structure EmitOut where
  state : CDPSocket
  trace : List BridgeAction
  ret : Bool
deriving DecidableEq, Repr

/-- CDPSocket.emit (source lines 101-126). The uuid stands for
randomUUID(); encodedStr stands for JSON.stringify of the external
codec's output for this envelope; evalOutcome is the settled outcome of
the Runtime.evaluate promise, which the source discards via catch. If
the final argument is a function it is popped and registered as a
one-shot listener under the fresh acknowledgement-event id before the
envelope is encoded and the evaluation dispatched; the call returns true
unconditionally. -/
def CDPSocket.emit (s : CDPSocket) (uuid : String) (encodedStr : String)
    (event : String) (args : List JSVal) (evalOutcome : Except Unit Unit) : EmitOut :=
  let callbackEvent := event ++ "-" ++ uuid
  let hasCb := (args.getLast?.map JSVal.isFunction).getD false
  let strippedArgs := if hasCb then args.dropLast else args
  let _ := evalOutcome
  match if hasCb then args.getLast? else none with
  | some cb =>
    { state := { s with listeners := s.listeners ++ [⟨callbackEvent, true, cb⟩] }
      trace := [BridgeAction.registerOnce callbackEvent cb,
                BridgeAction.encodeCall (event, callbackEvent, strippedArgs) s._namespace]
        ++ (match s._cdpClient with
            | some _ => [BridgeAction.evaluate (buildExpression s._namespace encodedStr)
                          s._executionContextId]
            | none => [])
      ret := true }
  | none =>
    { state := s
      trace := [BridgeAction.encodeCall (event, callbackEvent, strippedArgs) s._namespace]
        ++ (match s._cdpClient with
            | some _ => [BridgeAction.evaluate (buildExpression s._namespace encodedStr)
                          s._executionContextId]
            | none => [])
      ret := true }

/-- CDPSocket.connected (source lines 132-134): true iff a client
reference is currently held. -/
def CDPSocket.connected (s : CDPSocket) : Bool :=
  s._cdpClient.isSome

/-- CDPSocket.close (source lines 136-139): unsubscribe the
bindingCalled handler from the client when one is held, then drop the
client reference. The listener table is untouched. -/
def CDPSocket.close (s : CDPSocket) : CDPSocket :=
  { s with _cdpClient := none }

/-- CDPSocket.disconnect (source lines 128-130): delegates to close. -/
def CDPSocket.disconnect (s : CDPSocket) : CDPSocket :=
  s.close

/-- CDPSocket.processCDPRuntimeBinding (source lines 141-161). The
decoded parameter is the oracle result of decode(JSON.parse payload)
from the external codec. A notification whose name differs from this
socket's binding name is ignored with no state change; otherwise the
execution-context id is recorded and the decoded event is dispatched
locally with the synthesized acknowledgement callback appended. -/
def CDPSocket.processCDPRuntimeBinding (s : CDPSocket) (ev : BindingCalledEvent)
    (decoded : Envelope) : CDPSocket × List Invocation :=
  if ev.name ≠ bindingName s._namespace then (s, [])
  else
    let s1 := { s with _executionContextId := some ev.executionContextId }
    let (event, callbackEvent, args) := decoded
    dispatchLocal s1 event (args ++ [JSVal.ackFn callbackEvent])

/-- Semantics of the synthesized callback of source lines 155-157:
invoking it re-enters emit with the captured acknowledgement-event id as
the event name and the invocation's arguments. Non-callback values are
not invokable this way. -/
def invokeCallback (f : JSVal) (s : CDPSocket) (uuid : String) (encodedStr : String)
    (cbArgs : List JSVal) (evalOutcome : Except Unit Unit) : Option EmitOut :=
  match f with
  | .ackFn callbackEvent => some (s.emit uuid encodedStr callbackEvent cbArgs evalOutcome)
  | _ => none

/-- A socket together with the client-side fact of whether the client's
bindingCalled handler list still contains this socket's handler
(installed by the constructor, source line 84; removed by close,
source line 137). -/
structure ClientConn where
  socket : CDPSocket
  handlerRegistered : Bool
deriving DecidableEq, Repr

/-- CDPSocket.init (source lines 87-95): Runtime.enable, then
Runtime.addBinding with the namespace-scoped binding name, then the
constructor, which stores the client and subscribes the handler. -/
def CDPSocket.init (ns : String) : ClientConn :=
  { socket := { _cdpClient := some (), _namespace := ns,
                _executionContextId := none, listeners := [] }
    handlerRegistered := true }

/-- Close at the connection level: off is called on the client only when
a client reference is held (source line 137), then the reference is
dropped. -/
def ClientConn.close (c : ClientConn) : ClientConn :=
  match c.socket._cdpClient with
  | some _ => { socket := c.socket.close, handlerRegistered := false }
  | none => { c with socket := c.socket.close }

/-- Delivery of a bindingCalled notification from the client: the
socket's handler runs only while its subscription is registered. -/
def deliverBinding (c : ClientConn) (ev : BindingCalledEvent) (decoded : Envelope) :
    ClientConn × List Invocation :=
  if c.handlerRegistered then
    let (s', invs) := c.socket.processCDPRuntimeBinding ev decoded
    ({ c with socket := s' }, invs)
  else (c, [])

/-- The namespace registry CDPSocketServer (source lines 7-71): the
optional attached socket, the path, the full namespace, and the lazily
populated child map. A nested inductive because children are registries
themselves. -/
inductive CDPSocketServer where
  | mk : Option CDPSocket → String → String → List (String × CDPSocketServer) → CDPSocketServer

/-- The attached socket of a registry node. -/
def CDPSocketServer._cdpSocket : CDPSocketServer → Option CDPSocket
  | .mk sock _ _ _ => sock

/-- The path of a registry node. -/
def CDPSocketServer._path : CDPSocketServer → String
  | .mk _ p _ _ => p

/-- The full namespace of a registry node. -/
def CDPSocketServer._fullNamespace : CDPSocketServer → String
  | .mk _ _ full _ => full

/-- The child map of a registry node. -/
def CDPSocketServer._namespaceMap : CDPSocketServer → List (String × CDPSocketServer)
  | .mk _ _ _ m => m

/-- The constructor (source lines 13-18): stores the path and sets the
full namespace to path ++ namespace; no socket, no children. -/
def CDPSocketServer.new (path : String) (ns : String) : CDPSocketServer :=
  .mk none path (path ++ ns) []

/-- Lookup in the namespace map record (first match). -/
def lookupNs : List (String × CDPSocketServer) → String → Option CDPSocketServer
  | [], _ => none
  | (k, v) :: rest, key => if k = key then some v else lookupNs rest key

/-- CDPSocketServer.of (source lines 36-44): the child for
path ++ namespace, created with the parent's path on first access and
returned from the map thereafter. Returns the child and the successor
registry. -/
def CDPSocketServer.of (r : CDPSocketServer) (ns : String) :
    CDPSocketServer × CDPSocketServer :=
  match r with
  | .mk sock p full m =>
    let fullNs := p ++ ns
    match lookupNs m fullNs with
    | some child => (child, .mk sock p full m)
    | none =>
      let child := CDPSocketServer.new p ns
      (child, .mk sock p full (m ++ [(fullNs, child)]))

/-- CDPSocketServer.emit (source lines 30-34): forwards to the attached
socket when one is present, drops the call otherwise, and returns true
in both cases. -/
def CDPSocketServer.emit (r : CDPSocketServer) (uuid : String) (encodedStr : String)
    (event : String) (args : List JSVal) (evalOutcome : Except Unit Unit) :
    CDPSocketServer × List BridgeAction × Bool :=
  match r with
  | .mk sock p full m =>
    match sock with
    | some s =>
      let o := s.emit uuid encodedStr event args evalOutcome
      (.mk (some o.state) p full m, o.trace, true)
    | none => (.mk none p full m, [], true)

/-- Well-formedness of a registry tree as produced by the constructor
and of: every child map entry is keyed by its own full namespace and
carries its parent's path, recursively. -/
inductive WfServer : CDPSocketServer → Prop where
  | mk {sock : Option CDPSocket} {p full : String}
      {m : List (String × CDPSocketServer)}
      (hpath : ∀ kc ∈ m, kc.2._path = p)
      (hfull : ∀ kc ∈ m, kc.2._fullNamespace = kc.1)
      (hwf : ∀ kc ∈ m, WfServer kc.2) :
      WfServer (.mk sock p full m)

/-- The envelopes handed to the codec in a trace. -/
def encodeCalls (tr : List BridgeAction) : List (Envelope × String) :=
  tr.filterMap fun a =>
    match a with
    | .encodeCall env ns => some (env, ns)
    | _ => none

/-- The Runtime.evaluate calls in a trace. -/
def evaluateCalls (tr : List BridgeAction) : List (String × Option Nat) :=
  tr.filterMap fun a =>
    match a with
    | .evaluate e c => some (e, c)
    | _ => none

/-! Helper lemmas. -/

/-- Looking up a key appended to a map that does not contain it finds the
appended entry. -/
theorem lookupNs_append_self (m : List (String × CDPSocketServer)) (k : String)
    (c : CDPSocketServer) (h : lookupNs m k = none) :
    lookupNs (m ++ [(k, c)]) k = some c := by
  induction m with
  | nil => simp [lookupNs]
  | cons kv rest ih =>
    obtain ⟨k', v⟩ := kv
    by_cases hk : k' = k
    · simp [lookupNs, hk] at h
    · simp [lookupNs, hk] at h ⊢
      exact ih h

/-- A successful lookup returns an entry of the map. -/
theorem lookupNs_mem {m : List (String × CDPSocketServer)} {k : String}
    {c : CDPSocketServer} (h : lookupNs m k = some c) : (k, c) ∈ m := by
  induction m with
  | nil => simp [lookupNs] at h
  | cons kv rest ih =>
    obtain ⟨k', v⟩ := kv
    by_cases hk : k' = k
    · subst hk
      simp [lookupNs] at h
      simp [h]
    · simp [lookupNs, hk] at h
      exact List.mem_cons_of_mem _ (ih h)

/-- The child returned by of carries the parent's path. -/
theorem of_child_path (r : CDPSocketServer) (ns : String) (h : WfServer r) :
    (r.of ns).1._path = r._path := by
  cases r with
  | mk sock p full m =>
    cases h with
    | mk hpath hfull hwf =>
      cases hl : lookupNs m (p ++ ns) with
      | none =>
        simp [CDPSocketServer.of, hl, CDPSocketServer.new, CDPSocketServer._path]
      | some c =>
        have hc := hpath (p ++ ns, c) (lookupNs_mem hl)
        simpa [CDPSocketServer.of, hl, CDPSocketServer._path] using hc

/-- The child returned by of has full namespace path ++ suffix. -/
theorem of_child_full (r : CDPSocketServer) (ns : String) (h : WfServer r) :
    (r.of ns).1._fullNamespace = r._path ++ ns := by
  cases r with
  | mk sock p full m =>
    cases h with
    | mk hpath hfull hwf =>
      cases hl : lookupNs m (p ++ ns) with
      | none =>
        simp [CDPSocketServer.of, hl, CDPSocketServer.new, CDPSocketServer._fullNamespace,
          CDPSocketServer._path]
      | some c =>
        have hc := hfull (p ++ ns, c) (lookupNs_mem hl)
        simpa [CDPSocketServer.of, hl, CDPSocketServer._fullNamespace,
          CDPSocketServer._path] using hc

/-- The child returned by of is itself well-formed. -/
theorem of_child_wf (r : CDPSocketServer) (ns : String) (h : WfServer r) :
    WfServer (r.of ns).1 := by
  cases r with
  | mk sock p full m =>
    cases h with
    | mk hpath hfull hwf =>
      cases hl : lookupNs m (p ++ ns) with
      | none =>
        simp only [CDPSocketServer.of, hl]
        exact WfServer.mk (by simp) (by simp) (by simp)
      | some c =>
        have hc := hwf (p ++ ns, c) (lookupNs_mem hl)
        simpa [CDPSocketServer.of, hl] using hc

/-- Appending to a string is injective on the appended part. -/
theorem string_append_left_cancel {a x y : String} (h : a ++ x = a ++ y) : x = y := by
  have hd : (a ++ x).data = (a ++ y).data := congrArg String.data h
  simp only [String.data_append] at hd
  cases x with
  | mk dx =>
    cases y with
    | mk dy =>
      exact congrArg String.mk (List.append_cancel_left hd)

/-- The binding name construction is injective in the namespace. -/
theorem bindingName_injective {a b : String} (h : bindingName a = bindingName b) :
    a = b :=
  string_append_left_cancel h

/-- No listener of a table avoiding an event fires for that event. -/
theorem filter_fired_nil (L : List Listener) (e : String)
    (h : ∀ l ∈ L, l.event ≠ e) :
    L.filter (fun l => l.event == e) = [] := by
  rw [List.filter_eq_nil_iff]
  intro l hl
  simp [h l hl]

/-- Removing one-shot listeners of an event leaves a table avoiding that
event unchanged. -/
theorem filter_remaining_self (L : List Listener) (e : String)
    (h : ∀ l ∈ L, l.event ≠ e) :
    L.filter (fun l => !(l.event == e && l.once)) = L := by
  rw [List.filter_eq_self]
  intro l hl
  simp [h l hl]

/-- Evaluation form of emit when the final argument is a function. -/
theorem emit_eq_of_fn (s : CDPSocket) (uuid encodedStr event : String)
    (args : List JSVal) (f : JSVal) (o : Except Unit Unit)
    (hlast : args.getLast? = some f) (hf : f.isFunction = true) :
    s.emit uuid encodedStr event args o =
      { state := { s with listeners := s.listeners ++ [⟨event ++ "-" ++ uuid, true, f⟩] }
        trace := [BridgeAction.registerOnce (event ++ "-" ++ uuid) f,
                  BridgeAction.encodeCall (event, event ++ "-" ++ uuid, args.dropLast)
                    s._namespace]
          ++ (match s._cdpClient with
              | some _ => [BridgeAction.evaluate (buildExpression s._namespace encodedStr)
                            s._executionContextId]
              | none => [])
        ret := true } := by
  unfold CDPSocket.emit
  simp [hlast, hf]

/-- Evaluation form of emit when the final argument is not a function. -/
theorem emit_eq_of_nofn (s : CDPSocket) (uuid encodedStr event : String)
    (args : List JSVal) (o : Except Unit Unit)
    (h : (args.getLast?.map JSVal.isFunction).getD false = false) :
    s.emit uuid encodedStr event args o =
      { state := s
        trace := [BridgeAction.encodeCall (event, event ++ "-" ++ uuid, args) s._namespace]
          ++ (match s._cdpClient with
              | some _ => [BridgeAction.evaluate (buildExpression s._namespace encodedStr)
                            s._executionContextId]
              | none => [])
        ret := true } := by
  unfold CDPSocket.emit
  simp [h]

/-- The backslash and the single quote are different characters. -/
theorem backslash_ne_quote : backslashChar ≠ singleQuoteChar := by decide

/-- Unescaping walks over a leading non-backslash character. -/
theorem unescape_cons_of_ne (c : Char) (l : List Char) (h : ¬ c = backslashChar) :
    unescapeChars (c :: l) = c :: unescapeChars l := by
  cases l with
  | nil => simp [unescapeChars]
  | cons d ds => simp [unescapeChars, h]

/-- Escaping backslashes first and single quotes second is undone exactly
by the literal interpretation. -/
theorem unescape_escape_chars (l : List Char) :
    unescapeChars (escapeSingleQuotes (escapeBackslashes l)) = l := by
  induction l with
  | nil => rfl
  | cons c cs ih =>
    by_cases hb : c = backslashChar
    · subst hb
      rw [show escapeBackslashes (backslashChar :: cs)
            = backslashChar :: backslashChar :: escapeBackslashes cs from by
          simp [escapeBackslashes]]
      rw [show escapeSingleQuotes (backslashChar :: backslashChar :: escapeBackslashes cs)
            = backslashChar :: backslashChar :: escapeSingleQuotes (escapeBackslashes cs) from by
          simp [escapeSingleQuotes, backslash_ne_quote]]
      rw [show unescapeChars (backslashChar :: backslashChar
              :: escapeSingleQuotes (escapeBackslashes cs))
            = backslashChar :: unescapeChars (escapeSingleQuotes (escapeBackslashes cs)) from by
          simp [unescapeChars]]
      rw [ih]
    · by_cases hq : c = singleQuoteChar
      · subst hq
        rw [show escapeBackslashes (singleQuoteChar :: cs)
              = singleQuoteChar :: escapeBackslashes cs from by
            simp [escapeBackslashes, hb]]
        rw [show escapeSingleQuotes (singleQuoteChar :: escapeBackslashes cs)
              = backslashChar :: singleQuoteChar :: escapeSingleQuotes (escapeBackslashes cs)
            from by simp [escapeSingleQuotes]]
        rw [show unescapeChars (backslashChar :: singleQuoteChar
                :: escapeSingleQuotes (escapeBackslashes cs))
              = singleQuoteChar :: unescapeChars (escapeSingleQuotes (escapeBackslashes cs))
            from by simp [unescapeChars]]
        rw [ih]
      · rw [show escapeBackslashes (c :: cs) = c :: escapeBackslashes cs from by
            simp [escapeBackslashes, hb]]
        rw [show escapeSingleQuotes (c :: escapeBackslashes cs)
              = c :: escapeSingleQuotes (escapeBackslashes cs) from by
            simp [escapeSingleQuotes, hq]]
        rw [unescape_cons_of_ne c _ hb, ih]

/-- Claim C9: before the encoded payload is embedded in the injected
script it is escaped by replacing all backslashes first and all single
quotes second, in that order, and the resulting literal body unescapes
back to the original string for every string; with the two
replacements applied in the other order a payload containing a single
quote is corrupted. -/
theorem escape_order_and_roundtrip :
    (∀ s : String, escapePayload s = ⟨escapeSingleQuotes (escapeBackslashes s.data)⟩)
    ∧ (∀ s : String, unescapePayload (escapePayload s) = s)
    ∧ unescapePayload ⟨escapeBackslashes (escapeSingleQuotes
        (String.mk [singleQuoteChar]).data)⟩ ≠ String.mk [singleQuoteChar] := by
  refine ⟨fun s => rfl, ?_, by decide⟩
  intro s
  have h : unescapePayload (escapePayload s)
      = String.mk (unescapeChars (escapeSingleQuotes (escapeBackslashes s.data))) := rfl
  rw [h, unescape_escape_chars]

/-- Claim C7: of called twice with the same suffix on the same registry
node returns the same child on both calls, and the second call leaves
the registry unchanged, so the identity of the child is stable. -/
theorem of_same_suffix_stable (r : CDPSocketServer) (ns : String) :
    ((r.of ns).2.of ns).1 = (r.of ns).1 ∧ ((r.of ns).2.of ns).2 = (r.of ns).2 := by
  cases r with
  | mk sock p full m =>
    cases hl : lookupNs m (p ++ ns) with
    | some c =>
      constructor <;> simp [CDPSocketServer.of, hl]
    | none =>
      have h2 : lookupNs (m ++ [(p ++ ns, CDPSocketServer.new p ns)]) (p ++ ns)
          = some (CDPSocketServer.new p ns) := lookupNs_append_self m _ _ hl
      constructor <;> simp [CDPSocketServer.of, hl, h2]

/-- Concrete registry used by witnesses: path "/p", default namespace. -/
def sampleRegistry : CDPSocketServer := CDPSocketServer.new "/p" "/default"

/-- The sample registry is well-formed: it has no children. -/
theorem sampleRegistry_wf : WfServer sampleRegistry :=
  WfServer.mk (by simp [sampleRegistry, CDPSocketServer.new])
    (by simp [sampleRegistry, CDPSocketServer.new])
    (by simp [sampleRegistry, CDPSocketServer.new])

/-- Claim C10: nested of calls do not compose namespaces: the node
r.of(a).of(b) has the same full namespace string, and therefore the
same binding name, as r.of(b), because a child created by of inherits
only the parent's path, never the parent's full namespace. -/
theorem of_nested_namespace (r : CDPSocketServer) (a b : String) (h : WfServer r) :
    ((r.of a).1.of b).1._fullNamespace = (r.of b).1._fullNamespace
    ∧ bindingName ((r.of a).1.of b).1._fullNamespace
        = bindingName (r.of b).1._fullNamespace := by
  have hca := of_child_wf r a h
  have heq : ((r.of a).1.of b).1._fullNamespace = (r.of b).1._fullNamespace := by
    rw [of_child_full (r.of a).1 b hca, of_child_path r a h, of_child_full r b h]
  exact ⟨heq, congrArg bindingName heq⟩

/-- Witness for C10 at the sample registry with suffixes "/a" and "/b". -/
theorem of_nested_namespace_witness :
    ((sampleRegistry.of "/a").1.of "/b").1._fullNamespace
        = (sampleRegistry.of "/b").1._fullNamespace
    ∧ bindingName ((sampleRegistry.of "/a").1.of "/b").1._fullNamespace
        = bindingName (sampleRegistry.of "/b").1._fullNamespace :=
  of_nested_namespace sampleRegistry "/a" "/b" sampleRegistry_wf

/-- Claim C8: on a registry with a non-empty path, the nodes reached by
of("/a").of("/b") and of("/b").of("/a") carry different full namespace
strings: the suffix applications concatenate onto the path in an
order-sensitive way. -/
theorem of_order_sensitive (r : CDPSocketServer) (h : WfServer r)
    (_hp : r._path ≠ "") :
    ((r.of "/a").1.of "/b").1._fullNamespace
      ≠ ((r.of "/b").1.of "/a").1._fullNamespace := by
  have h1 : ((r.of "/a").1.of "/b").1._fullNamespace = r._path ++ "/b" := by
    rw [of_child_full (r.of "/a").1 "/b" (of_child_wf r "/a" h), of_child_path r "/a" h]
  have h2 : ((r.of "/b").1.of "/a").1._fullNamespace = r._path ++ "/a" := by
    rw [of_child_full (r.of "/b").1 "/a" (of_child_wf r "/b" h), of_child_path r "/b" h]
  rw [h1, h2]
  intro he
  have hba : ("/b" : String) = "/a" := string_append_left_cancel he
  exact absurd hba (by decide)

/-- Witness for C8 at the sample registry, whose path "/p" is non-empty. -/
theorem of_order_sensitive_witness :
    sampleRegistry._path ≠ ""
    ∧ ((sampleRegistry.of "/a").1.of "/b").1._fullNamespace
        ≠ ((sampleRegistry.of "/b").1.of "/a").1._fullNamespace :=
  ⟨by decide, of_order_sensitive sampleRegistry sampleRegistry_wf (by decide)⟩

/-- Emit returns true on every input. -/
theorem emit_ret_true (s : CDPSocket) (uuid encodedStr event : String)
    (args : List JSVal) (o : Except Unit Unit) :
    (s.emit uuid encodedStr event args o).ret = true := by
  cases hl : args.getLast? with
  | none => rw [emit_eq_of_nofn s uuid encodedStr event args o (by simp [hl])]
  | some v =>
    cases hv : v.isFunction with
    | true => rw [emit_eq_of_fn s uuid encodedStr event args v o hl hv]
    | false => rw [emit_eq_of_nofn s uuid encodedStr event args o (by simp [hl, hv])]

/-- Claim C1: an inbound bindingCalled notification whose name differs
from the namespace-scoped binding name this bridge registered is
silently ignored, with no local dispatch and no state change; in
particular a notification addressed to the binding name of a different
namespace never dispatches a local event on this bridge. -/
theorem processBinding_namespace_isolation (s : CDPSocket) (ev : BindingCalledEvent)
    (decoded : Envelope) (sB : CDPSocket) (nsA pl : String) (ctx : Nat) (d : Envelope)
    (h : ev.name ≠ bindingName s._namespace) (hne : nsA ≠ sB._namespace) :
    s.processCDPRuntimeBinding ev decoded = (s, [])
    ∧ sB.processCDPRuntimeBinding ⟨bindingName nsA, pl, ctx⟩ d = (sB, []) := by
  constructor
  · simp [CDPSocket.processCDPRuntimeBinding, h]
  · have hb : bindingName nsA ≠ bindingName sB._namespace :=
      fun he => hne (bindingName_injective he)
    simp [CDPSocket.processCDPRuntimeBinding, hb]

/-- Witness for C1: a bridge on namespace "/default" ignores a
notification named "other", and a bridge on namespace "/b" ignores the
binding name of namespace "/a". -/
theorem processBinding_namespace_isolation_witness :
    (("other" : String) ≠ bindingName (CDPSocket.mk (some ()) "/default" none [])._namespace)
    ∧ (("/a" : String) ≠ (CDPSocket.mk (some ()) "/b" none [])._namespace)
    ∧ ((CDPSocket.mk (some ()) "/default" none []).processCDPRuntimeBinding
          ⟨"other", "p", 0⟩ ("e", "ce", [])
          = (CDPSocket.mk (some ()) "/default" none [], [])
        ∧ (CDPSocket.mk (some ()) "/b" none []).processCDPRuntimeBinding
            ⟨bindingName "/a", "p", 0⟩ ("e", "ce", [])
          = (CDPSocket.mk (some ()) "/b" none [], [])) :=
  ⟨by decide, by decide,
    processBinding_namespace_isolation (CDPSocket.mk (some ()) "/default" none [])
      ⟨"other", "p", 0⟩ ("e", "ce", []) (CDPSocket.mk (some ()) "/b" none [])
      "/a" "p" 0 ("e", "ce", []) (by decide) (by decide)⟩

/-- Claim C4 counterexample: closing a bridge that holds a registered
local listener leaves its listener table unchanged, so close does not
clear the bridge's local listeners as the claim states. -/
theorem close_keeps_local_listeners :
    (CDPSocket.close
        (CDPSocket.mk (some ()) "/default" none [Listener.mk "foo" false (JSVal.fn 0)])).listeners
      = [Listener.mk "foo" false (JSVal.fn 0)]
    ∧ [Listener.mk "foo" false (JSVal.fn 0)] ≠ ([] : List Listener) :=
  ⟨rfl, by decide⟩

/-- Claim C4 as amended: after close (and disconnect, which is the same
operation) the bridge reports connected = false, the client-side
subscription is removed so a later matching binding invocation causes no
local dispatch, and connected is true exactly when a client reference is
held; the local listener table is left untouched rather than cleared. -/
theorem close_disconnects_and_unsubscribes (c : ClientConn)
    (ev : BindingCalledEvent) (d : Envelope) (s2 : CDPSocket)
    (hconn : c.socket._cdpClient.isSome = true) :
    c.close.socket.connected = false
    ∧ c.close.handlerRegistered = false
    ∧ deliverBinding c.close ev d = (c.close, [])
    ∧ c.close.socket.listeners = c.socket.listeners
    ∧ c.socket.disconnect = c.socket.close
    ∧ s2.connected = s2._cdpClient.isSome := by
  obtain ⟨⟨cl, ns, ctx, L⟩, hr⟩ := c
  cases cl with
  | none => simp at hconn
  | some u =>
    refine ⟨rfl, rfl, ?_, rfl, rfl, rfl⟩
    simp [ClientConn.close, deliverBinding, CDPSocket.close]

/-- Witness for C4 as amended, on a freshly initialized connection for
namespace "/default". -/
theorem close_disconnects_and_unsubscribes_witness :
    ((CDPSocket.init "/default").socket._cdpClient.isSome = true)
    ∧ ((CDPSocket.init "/default").close.socket.connected = false
        ∧ (CDPSocket.init "/default").close.handlerRegistered = false
        ∧ deliverBinding (CDPSocket.init "/default").close
            ⟨bindingName "/default", "p", 3⟩ ("e", "ce", [])
          = ((CDPSocket.init "/default").close, [])
        ∧ (CDPSocket.init "/default").close.socket.listeners
          = (CDPSocket.init "/default").socket.listeners
        ∧ (CDPSocket.init "/default").socket.disconnect
          = (CDPSocket.init "/default").socket.close
        ∧ (CDPSocket.mk (some ()) "/x" none []).connected
          = (CDPSocket.mk (some ()) "/x" none [])._cdpClient.isSome) :=
  ⟨rfl, close_disconnects_and_unsubscribes (CDPSocket.init "/default")
    ⟨bindingName "/default", "p", 3⟩ ("e", "ce", [])
    (CDPSocket.mk (some ()) "/x" none []) rfl⟩

/-- Claim C5: the envelope handed to the codec by emit is exactly the
3-tuple of the event, the fresh acknowledgement id event-dash-uuid, and
the argument list after any trailing callback is stripped; and a bridge
holding a client issues exactly one evaluation call, targeting the last
observed execution context. -/
theorem emit_envelope_exact (s sc : CDPSocket) (uuid encodedStr event : String)
    (args : List JSVal) (o : Except Unit Unit)
    (hc : sc._cdpClient.isSome = true) :
    encodeCalls (s.emit uuid encodedStr event args o).trace
      = [((event, event ++ "-" ++ uuid,
            if (args.getLast?.map JSVal.isFunction).getD false then args.dropLast else args),
          s._namespace)]
    ∧ evaluateCalls (sc.emit uuid encodedStr event args o).trace
      = [(buildExpression sc._namespace encodedStr, sc._executionContextId)] := by
  constructor
  · cases hl : args.getLast? with
    | none =>
      rw [emit_eq_of_nofn s uuid encodedStr event args o (by simp [hl])]
      cases hcc : s._cdpClient <;> simp [encodeCalls, hcc, hl]
    | some v =>
      cases hv : v.isFunction with
      | true =>
        rw [emit_eq_of_fn s uuid encodedStr event args v o hl hv]
        cases hcc : s._cdpClient <;> simp [encodeCalls, hcc, hl, hv]
      | false =>
        rw [emit_eq_of_nofn s uuid encodedStr event args o (by simp [hl, hv])]
        cases hcc : s._cdpClient <;> simp [encodeCalls, hcc, hl, hv]
  · cases hcs : sc._cdpClient with
    | none => rw [hcs] at hc; simp at hc
    | some u =>
      cases hl : args.getLast? with
      | none =>
        rw [emit_eq_of_nofn sc uuid encodedStr event args o (by simp [hl])]
        simp [evaluateCalls, hcs]
      | some v =>
        cases hv : v.isFunction with
        | true =>
          rw [emit_eq_of_fn sc uuid encodedStr event args v o hl hv]
          simp [evaluateCalls, hcs]
        | false =>
          rw [emit_eq_of_nofn sc uuid encodedStr event args o (by simp [hl, hv])]
          simp [evaluateCalls, hcs]

/-- Witness for C5: emitting "ping" with args [1, 2] and no callback on a
connected "/default" bridge encodes ("ping", "ping-u", [1, 2]) and issues
one evaluation. -/
theorem emit_envelope_exact_witness :
    ((CDPSocket.mk (some ()) "/default" none [])._cdpClient.isSome = true)
    ∧ (encodeCalls ((CDPSocket.mk (some ()) "/default" none []).emit "u" "enc" "ping"
          [JSVal.num 1, JSVal.num 2] (Except.ok ())).trace
        = [(("ping", "ping" ++ "-" ++ "u",
              if (([JSVal.num 1, JSVal.num 2] : List JSVal).getLast?.map
                    JSVal.isFunction).getD false
              then ([JSVal.num 1, JSVal.num 2] : List JSVal).dropLast
              else [JSVal.num 1, JSVal.num 2]),
            (CDPSocket.mk (some ()) "/default" none [])._namespace)]
      ∧ evaluateCalls ((CDPSocket.mk (some ()) "/default" none []).emit "u" "enc" "ping"
            [JSVal.num 1, JSVal.num 2] (Except.ok ())).trace
        = [(buildExpression (CDPSocket.mk (some ()) "/default" none [])._namespace "enc",
            (CDPSocket.mk (some ()) "/default" none [])._executionContextId)]) :=
  ⟨rfl, emit_envelope_exact (CDPSocket.mk (some ()) "/default" none [])
    (CDPSocket.mk (some ()) "/default" none []) "u" "enc" "ping"
    [JSVal.num 1, JSVal.num 2] (Except.ok ()) rfl⟩

/-- Claim C6: emit returns true in every case, on the registry and on the
bridge: a registry without an attached socket drops the call as a no-op
and still returns true, and the outcome of the Runtime.evaluate promise
is swallowed, never affecting the result of emit. -/
theorem emit_always_true (r rE : CDPSocketServer) (s : CDPSocket)
    (uuid encodedStr event : String) (args : List JSVal)
    (o o1 o2 : Except Unit Unit) (hE : rE._cdpSocket = none) :
    (r.emit uuid encodedStr event args o).2.2 = true
    ∧ rE.emit uuid encodedStr event args o = (rE, [], true)
    ∧ (s.emit uuid encodedStr event args o).ret = true
    ∧ s.emit uuid encodedStr event args o1 = s.emit uuid encodedStr event args o2 := by
  refine ⟨?_, ?_, emit_ret_true s uuid encodedStr event args o, rfl⟩
  · cases r with
    | mk sock p full m => cases sock <;> rfl
  · cases rE with
    | mk sock p full m =>
      cases sock with
      | none => rfl
      | some s' => simp [CDPSocketServer._cdpSocket] at hE

/-- Witness for C6: a registry with no attached socket. -/
theorem emit_always_true_witness :
    (sampleRegistry._cdpSocket = none)
    ∧ ((sampleRegistry.emit "u" "enc" "ping" [] (Except.ok ())).2.2 = true
        ∧ sampleRegistry.emit "u" "enc" "ping" [] (Except.ok ())
          = (sampleRegistry, [], true)
        ∧ ((CDPSocket.mk (some ()) "/default" none []).emit "u" "enc" "ping" []
            (Except.ok ())).ret = true
        ∧ (CDPSocket.mk (some ()) "/default" none []).emit "u" "enc" "ping" []
            (Except.error ())
          = (CDPSocket.mk (some ()) "/default" none []).emit "u" "enc" "ping" []
            (Except.ok ())) :=
  ⟨rfl, emit_always_true sampleRegistry sampleRegistry
    (CDPSocket.mk (some ()) "/default" none []) "u" "enc" "ping" []
    (Except.ok ()) (Except.error ()) (Except.ok ()) rfl⟩

/-- Claim C2: when the final emit argument is a function, it is stripped
from the encoded argument list, exactly one one-shot listener for it is
registered under the fresh acknowledgement-event id, the registration
appears in the trace strictly before the outbound evaluation, and when
the acknowledgement event later fires the listener is invoked with
exactly the acknowledgement's arguments and is removed by that first
invocation, restoring the original listener table. -/
theorem emit_registers_one_shot_ack_listener (s : CDPSocket)
    (uuid encodedStr event : String) (args : List JSVal) (f : JSVal)
    (o : Except Unit Unit) (ackArgs : List JSVal)
    (hlast : args.getLast? = some f) (hf : f.isFunction = true)
    (hfresh : ∀ l ∈ s.listeners, l.event ≠ event ++ "-" ++ uuid) :
    (s.emit uuid encodedStr event args o).state.listeners
        = s.listeners ++ [Listener.mk (event ++ "-" ++ uuid) true f]
    ∧ encodeCalls (s.emit uuid encodedStr event args o).trace
        = [((event, event ++ "-" ++ uuid, args.dropLast), s._namespace)]
    ∧ (s.emit uuid encodedStr event args o).trace
        = BridgeAction.registerOnce (event ++ "-" ++ uuid) f
          :: BridgeAction.encodeCall (event, event ++ "-" ++ uuid, args.dropLast) s._namespace
          :: (match s._cdpClient with
              | some _ => [BridgeAction.evaluate (buildExpression s._namespace encodedStr)
                            s._executionContextId]
              | none => [])
    ∧ dispatchLocal (s.emit uuid encodedStr event args o).state (event ++ "-" ++ uuid) ackArgs
        = (s, [(f, ackArgs)]) := by
  rw [emit_eq_of_fn s uuid encodedStr event args f o hlast hf]
  refine ⟨rfl, ?_, ?_, ?_⟩
  · cases hcc : s._cdpClient <;> simp [encodeCalls, hcc]
  · rfl
  · unfold dispatchLocal
    rw [show ({ s with listeners := s.listeners ++ [Listener.mk (event ++ "-" ++ uuid) true f] }
          : CDPSocket).listeners
        = s.listeners ++ [Listener.mk (event ++ "-" ++ uuid) true f] from rfl]
    rw [List.filter_append, List.filter_append,
      filter_fired_nil s.listeners _ hfresh, filter_remaining_self s.listeners _ hfresh]
    simp

/-- Witness for C2: emitting "ping" with args [1, fn] on a fresh
"/default" bridge. -/
theorem emit_registers_one_shot_ack_listener_witness :
    (([JSVal.num 1, JSVal.fn 5] : List JSVal).getLast? = some (JSVal.fn 5))
    ∧ ((JSVal.fn 5).isFunction = true)
    ∧ (∀ l ∈ (CDPSocket.mk (some ()) "/default" none []).listeners,
        l.event ≠ "ping" ++ "-" ++ "u")
    ∧ (((CDPSocket.mk (some ()) "/default" none []).emit "u" "enc" "ping"
          [JSVal.num 1, JSVal.fn 5] (Except.ok ())).state.listeners
        = (CDPSocket.mk (some ()) "/default" none []).listeners
          ++ [Listener.mk ("ping" ++ "-" ++ "u") true (JSVal.fn 5)]
      ∧ encodeCalls ((CDPSocket.mk (some ()) "/default" none []).emit "u" "enc" "ping"
            [JSVal.num 1, JSVal.fn 5] (Except.ok ())).trace
        = [(("ping", "ping" ++ "-" ++ "u",
              ([JSVal.num 1, JSVal.fn 5] : List JSVal).dropLast),
            (CDPSocket.mk (some ()) "/default" none [])._namespace)]
      ∧ ((CDPSocket.mk (some ()) "/default" none []).emit "u" "enc" "ping"
            [JSVal.num 1, JSVal.fn 5] (Except.ok ())).trace
        = BridgeAction.registerOnce ("ping" ++ "-" ++ "u") (JSVal.fn 5)
          :: BridgeAction.encodeCall
              ("ping", "ping" ++ "-" ++ "u", ([JSVal.num 1, JSVal.fn 5] : List JSVal).dropLast)
              (CDPSocket.mk (some ()) "/default" none [])._namespace
          :: (match (CDPSocket.mk (some ()) "/default" none [])._cdpClient with
              | some _ => [BridgeAction.evaluate
                            (buildExpression
                              (CDPSocket.mk (some ()) "/default" none [])._namespace "enc")
                            (CDPSocket.mk (some ()) "/default" none [])._executionContextId]
              | none => [])
      ∧ dispatchLocal ((CDPSocket.mk (some ()) "/default" none []).emit "u" "enc" "ping"
            [JSVal.num 1, JSVal.fn 5] (Except.ok ())).state ("ping" ++ "-" ++ "u")
            [JSVal.str "ok"]
        = (CDPSocket.mk (some ()) "/default" none [],
            [(JSVal.fn 5, [JSVal.str "ok"])])) :=
  ⟨rfl, rfl, by simp,
    emit_registers_one_shot_ack_listener (CDPSocket.mk (some ()) "/default" none [])
      "u" "enc" "ping" [JSVal.num 1, JSVal.fn 5] (JSVal.fn 5) (Except.ok ())
      [JSVal.str "ok"] rfl rfl (by simp)⟩

/-- Claim C3 counterexample: invoking the synthesized acknowledgement
callback with a single function argument does not produce an envelope
carrying that argument list: the re-entered emit detaches the trailing
function, so the outbound envelope's argument list is empty rather than
the callback's argument list. -/
theorem ack_callback_args_counterexample :
    (invokeCallback (JSVal.ackFn "greet-ackid123")
        (CDPSocket.mk (some ()) "/default" none []) "u1" "enc" [JSVal.fn 0]
        (Except.ok ())).map (fun out => encodeCalls out.trace)
      = some [(("greet-ackid123", "greet-ackid123-u1", []), "/default")]
    ∧ ([] : List JSVal) ≠ [JSVal.fn 0] :=
  ⟨rfl, by decide⟩

/-- Claim C3 as amended: an inbound binding invocation whose payload
decodes to (event, ackEventId, args) on a matching bridge dispatches the
local event with args plus one appended synthesized callback; invoking
that callback re-enters emit with ackEventId as the event name, which
produces exactly one codec envelope whose event name is ackEventId,
whose acknowledgement id is ackEventId-dash-uuid for the fresh uuid, and
whose argument list is the callback's arguments — provided the last
callback argument is not itself a function (a trailing function would be
detached as a further acknowledgement callback). -/
theorem inbound_dispatch_ack_roundtrip (s : CDPSocket) (ev : BindingCalledEvent)
    (event callbackEvent : String) (args : List JSVal)
    (s1 : CDPSocket) (uuid encodedStr : String) (cbArgs : List JSVal)
    (o : Except Unit Unit)
    (hname : ev.name = bindingName s._namespace)
    (hnofn : (cbArgs.getLast?.map JSVal.isFunction).getD false = false) :
    s.processCDPRuntimeBinding ev (event, callbackEvent, args)
      = dispatchLocal { s with _executionContextId := some ev.executionContextId }
          event (args ++ [JSVal.ackFn callbackEvent])
    ∧ invokeCallback (JSVal.ackFn callbackEvent) s1 uuid encodedStr cbArgs o
        = some (s1.emit uuid encodedStr callbackEvent cbArgs o)
    ∧ encodeCalls (s1.emit uuid encodedStr callbackEvent cbArgs o).trace
        = [((callbackEvent, callbackEvent ++ "-" ++ uuid, cbArgs), s1._namespace)] := by
  refine ⟨?_, rfl, ?_⟩
  · simp [CDPSocket.processCDPRuntimeBinding, hname]
  · rw [emit_eq_of_nofn s1 uuid encodedStr callbackEvent cbArgs o hnofn]
    cases hcc : s1._cdpClient <;> simp [encodeCalls, hcc]

/-- Witness for C3 as amended: the scenario of the spec, with payload
("greet", "greet-ackid123", ["hi"]) and callback invocation ("ok"). -/
theorem inbound_dispatch_ack_roundtrip_witness :
    ((BindingCalledEvent.mk (bindingName "/default") "p" 7).name
        = bindingName (CDPSocket.mk (some ()) "/default" none [])._namespace)
    ∧ ((([JSVal.str "ok"] : List JSVal).getLast?.map JSVal.isFunction).getD false = false)
    ∧ ((CDPSocket.mk (some ()) "/default" none []).processCDPRuntimeBinding
          (BindingCalledEvent.mk (bindingName "/default") "p" 7)
          ("greet", "greet-ackid123", [JSVal.str "hi"])
        = dispatchLocal
            { CDPSocket.mk (some ()) "/default" none [] with
              _executionContextId :=
                some (BindingCalledEvent.mk (bindingName "/default") "p" 7).executionContextId }
            "greet" ([JSVal.str "hi"] ++ [JSVal.ackFn "greet-ackid123"])
      ∧ invokeCallback (JSVal.ackFn "greet-ackid123")
          (CDPSocket.mk (some ()) "/default" none []) "u2" "enc" [JSVal.str "ok"]
          (Except.ok ())
        = some ((CDPSocket.mk (some ()) "/default" none []).emit "u2" "enc"
            "greet-ackid123" [JSVal.str "ok"] (Except.ok ()))
      ∧ encodeCalls ((CDPSocket.mk (some ()) "/default" none []).emit "u2" "enc"
            "greet-ackid123" [JSVal.str "ok"] (Except.ok ())).trace
        = [(("greet-ackid123", "greet-ackid123" ++ "-" ++ "u2", [JSVal.str "ok"]),
            (CDPSocket.mk (some ()) "/default" none [])._namespace)]) :=
  ⟨rfl, rfl,
    inbound_dispatch_ack_roundtrip (CDPSocket.mk (some ()) "/default" none [])
      (BindingCalledEvent.mk (bindingName "/default") "p" 7)
      "greet" "greet-ackid123" [JSVal.str "hi"]
      (CDPSocket.mk (some ()) "/default" none []) "u2" "enc" [JSVal.str "ok"]
      (Except.ok ()) rfl rfl⟩
